import Mathlib

/-!
Shallow embedding of the `gui_no_kit` process-supervision core
(`src/gui_no_kit/server.py` and `src/gui_no_kit/logs.py`).

Modelling conventions:
* OS interaction (directory listings, spawned process ids, `poll()` results,
  TCP connect results, whether a `wait(timeout=...)` raised `TimeoutExpired`)
  is passed in explicitly as oracle data, so every function is a pure,
  executable Lean function of the Python object state plus the oracle.
* Side effects that matter to the claims (spawning a process with an argument
  vector, emitting a warning, joining a reader thread, signalling / killing /
  waiting on a process) are recorded in an event trace returned alongside the
  updated state.
* Python exceptions become an explicit error type; a raise site maps to
  returning `Except.error`, a normal return to `Except.ok`.
-/

deriving instance DecidableEq for Except

namespace GuiNoKit

/-- The line terminator characters stripped by `line.rstrip("\n\r")` in
`LogCapture._read_stream`. -/
def isNewlineChar (c : Char) : Bool := c = '\n' || c = '\r'

/-- Python's `line.rstrip("\n\r")`: remove all trailing characters belonging
to the set `{'\n', '\r'}`. -/
def rstripNewlines (s : String) : String :=
  ⟨(s.data.reverse.dropWhile isNewlineChar).reverse⟩

/-- The buffer entry appended by `LogCapture._read_stream` for one raw line:
`f"[{prefix}] {decoded}"` where `decoded = line.rstrip("\n\r")`. -/
def taggedLine (tag line : String) : String :=
  "[" ++ tag ++ "] " ++ rstripNewlines line

/-- State of `logs.LogCapture`.  The two `threading.Thread | None` fields are
modelled by whether a reader-thread handle is recorded; `buffer` is the
ordered list of captured lines; `stopEventSet` is the state of the
`threading.Event` stop flag. -/
structure LogCapture where
  stdout_thread : Bool
  stderr_thread : Bool
  buffer : List String
  stopEventSet : Bool
deriving Repr, DecidableEq

/-- `LogCapture.__init__`: no threads, empty buffer, stop event clear. -/
def LogCapture.init : LogCapture :=
  { stdout_thread := false, stderr_thread := false, buffer := [], stopEventSet := false }

/-- Events recorded while stopping a session (thread joins in
`LogCapture.stop`, signal/wait/kill calls in `XpraServer.stop`). -/
inductive StopEvent where
  /-- `thread.join(timeout=2)` on the named reader thread. -/
  | joinReader (which : String)
  /-- `process.terminate()` — the graceful-termination signal. -/
  | terminate (pid : Nat)
  /-- `process.wait(timeout=t)`; `expired` records whether it raised
  `subprocess.TimeoutExpired`. -/
  | waitTimeout (pid : Nat) (t : Nat) (expired : Bool)
  /-- `process.kill()` — forced kill. -/
  | kill (pid : Nat)
  /-- `process.wait()` with no timeout (unconditional). -/
  | waitForever (pid : Nat)
deriving Repr, DecidableEq

/-- `LogCapture.stop`: set the stop event, then join each reader thread that
was recorded (with a 2-second grace period each).  The thread handles are not
cleared by the Python code; only the event flag changes. -/
def LogCapture.stop (c : LogCapture) : LogCapture × List StopEvent :=
  ({ c with stopEventSet := true },
    (if c.stdout_thread then [StopEvent.joinReader "stdout"] else []) ++
    (if c.stderr_thread then [StopEvent.joinReader "stderr"] else []))

/-- `LogCapture.get_output`: `"\n".join(self.buffer)`. -/
def LogCapture.get_output (c : LogCapture) : String :=
  String.intercalate "\n" c.buffer

/-- `LogCapture.get_lines`: a copy of the buffer as a list. -/
def LogCapture.get_lines (c : LogCapture) : List String :=
  c.buffer

/-- `LogCapture.clear`: empty the buffer. -/
def LogCapture.clear (c : LogCapture) : LogCapture :=
  { c with buffer := [] }

/-- One loop iteration body of `LogCapture._read_stream`: append
`f"[{prefix}] {line.rstrip(chr(10) + chr(13))}"` to the shared buffer. -/
def LogCapture.appendTagged (c : LogCapture) (tag line : String) : LogCapture :=
  { c with buffer := c.buffer ++ [taggedLine tag line] }

/-- `LogCapture._read_stream`: iterate over the raw lines yielded by
`iter(stream.readline, "")` (so an empty string ends the loop), append each
line tagged and stripped, and stop early when the stop event is observed
after an append.  The raw lines the stream would yield are the oracle. -/
def LogCapture.readStream (c : LogCapture) (tag : String) : List String → LogCapture
  | [] => c
  | line :: rest =>
    if line = "" then c
    else
      let c' := c.appendTagged tag line
      if c'.stopEventSet then c' else c'.readStream tag rest

/-- The exception taxonomy of the core, one constructor per distinct raise
site.  The Python code raises `RuntimeError`/`ValueError` with distinct
messages; the spec names them `AlreadyRunningError`, `UnsupportedPlatformError`,
`ResourceExhaustedError`, `HelperStartupError`, `ReadinessTimeoutError`,
`InvalidProcessError`.  Message payloads are kept where a claim mentions
message content. -/
inductive XpraError where
  /-- `RuntimeError("Server already running")` in `XpraServer.start`. -/
  | alreadyRunning
  /-- `RuntimeError(...)` in `_find_free_display` / `_start_xvfb` when the
  platform is not Linux; carries the full message. -/
  | unsupportedPlatform (msg : String)
  /-- `RuntimeError("Could not find free X11 display")`. -/
  | resourceExhausted
  /-- `RuntimeError(f"Xvfb failed to start on {display}")`. -/
  | helperStartup (display : String)
  /-- `RuntimeError(f"WebSocket endpoint not ready after {timeout} seconds")`. -/
  | readinessTimeout (timeout : Nat)
  /-- `ValueError("Process must have stdout and stderr set to PIPE")` in
  `LogCapture.attach`. -/
  | invalidProcess
deriving Repr, DecidableEq

/-- The reader-thread tags passed in `LogCapture.attach`:
`args=(process.stdout, "STDOUT")` and `args=(process.stderr, "STDERR")`. -/
def readerTags : List String := ["STDOUT", "STDERR"]

/-- `LogCapture.attach`: fail with `InvalidProcessError` when either stream is
absent; otherwise clear the stop event, record both reader-thread handles and
start the readers with tags `"STDOUT"` and `"STDERR"`. -/
def LogCapture.attach (c : LogCapture) (hasStdout hasStderr : Bool) :
    Except XpraError (LogCapture × List String) :=
  if hasStdout = false ∨ hasStderr = false then .error .invalidProcess
  else
    .ok ({ c with stopEventSet := false, stdout_thread := true, stderr_thread := true },
      readerTags)

/-- The numeric value of a decimal digit character. -/
def digitVal (c : Char) : Nat := c.toNat - '0'.toNat

/-- Accumulate a nonempty run of decimal digits left to right; `none` on the
first non-digit character. -/
def decDigitsAux (acc : Nat) : List Char → Option Nat
  | [] => some acc
  | c :: cs => if c.isDigit then decDigitsAux (acc * 10 + digitVal c) cs else none

/-- Parse a nonempty all-digit character list as a decimal number. -/
def decDigits? : List Char → Option Nat
  | [] => none
  | l => decDigitsAux 0 l

/-- Python's `int(str)` applied to a display-socket filename suffix: optional
sign followed by decimal digits (the corner cases of `int()` such as embedded
underscores or surrounding whitespace do not arise for socket filenames). -/
def pyIntChars (l : List Char) : Option Int :=
  match l with
  | '-' :: rest => (decDigits? rest).map (fun n => -(n : Int))
  | '+' :: rest => (decDigits? rest).map (fun n => (n : Int))
  | rest => (decDigits? rest).map (fun n => (n : Int))

/-- `int(str)` on a whole string. -/
def pyInt (s : String) : Option Int := pyIntChars s.data

/-- The state of the X11 socket directory `/tmp/.X11-unix`: whether the
directory exists and, if so, the filenames it contains. -/
structure X11Dir where
  dirExists : Bool
  files : List String
deriving Repr, DecidableEq

/-- `os.path.exists(os.path.join("/tmp/.X11-unix", "X" + str(n)))`. -/
def X11Dir.sockExists (d : X11Dir) (n : Nat) : Bool :=
  d.dirExists && d.files.contains ("X" ++ toString n)

/-- The `used_displays` set in `_find_free_display`: for each filename in the
directory starting with `"X"`, `int(filename[1:])`, skipping parse failures;
empty when the directory does not exist. -/
def X11Dir.usedDisplays (d : X11Dir) : List Int :=
  if d.dirExists then
    d.files.filterMap (fun f =>
      match f.data with
      | 'X' :: rest => pyIntChars rest
      | _ => none)
  else []

/-- The linear scan `for display_num in range(100, 10000)` of
`_find_free_display`, with explicit fuel: return the first candidate
satisfying `isFree`. -/
def scanFree (isFree : Nat → Bool) : Nat → Nat → Option Nat
  | 0, _ => none
  | fuel + 1, n => if isFree n then some n else scanFree isFree fuel (n + 1)

/-- The message of the `UnsupportedPlatformError` raised by
`_find_free_display` on a non-Linux platform. -/
def unsupportedDisplayMsg (plat : String) : String :=
  "Display management is only supported on Linux/X11, " ++
  "not on " ++ plat ++ ". " ++
  "On macOS and Windows, Xpra uses the native display system."

/-- One candidate of the scan is free when it is neither in `used_displays`
nor has an existing socket file. -/
def displayFree (d : X11Dir) (n : Nat) : Bool :=
  !(d.usedDisplays.contains (n : Int)) && !(d.sockExists n)

/-- `XpraServer._find_free_display`: Linux-only; compute `used_displays` from
the socket directory, then scan display numbers `100, 101, ..., 9999`
returning `":" + str(n)` for the first `n` not in the used set whose socket
file does not exist; `ResourceExhaustedError` when the scan is exhausted. -/
def find_free_display (plat : String) (d : X11Dir) : Except XpraError String :=
  if plat ≠ "Linux" then
    .error (.unsupportedPlatform (unsupportedDisplayMsg plat))
  else
    match scanFree (displayFree d) 9900 100 with
    | some n => .ok (":" ++ toString n)
    | none => .error .resourceExhausted

/-- Events recorded while starting a session. -/
inductive StartEvent where
  /-- `subprocess.Popen(cmd, ...)` for the Xvfb helper, with its full
  argument vector. -/
  | spawnXvfb (pid : Nat) (args : List String)
  /-- `warnings.warn(msg)` — a non-fatal warning surfaced to the caller. -/
  | warn (msg : String)
  /-- `subprocess.Popen(args, ..., env=env)` for the main xpra process, with
  its full argument vector and the two environment overrides
  `XPRA_LOG_DIR` and `XPRA_NOTTY`. -/
  | spawnMain (pid : Nat) (args : List String) (logDir notty : String)
  /-- `self.log_capture.attach(self.process)`. -/
  | attachCapture (pid : Nat)
deriving Repr, DecidableEq

/-- State of `server.XpraServer`: the Python object's mutable fields.
Process handles are the process ids of the recorded `subprocess.Popen`
objects. -/
structure XpraServer where
  host : String
  port : Nat
  display : Option String
  process : Option Nat
  log_capture : LogCapture
  xvfb_process : Option Nat
  platform : String
deriving Repr, DecidableEq

/-- The OS oracle consumed by `XpraServer.start`: the X11 socket directory
contents, the process ids the two `Popen` calls would produce, whether the
Xvfb helper is still alive when polled after the settle delay, and the
result of the `i`-th `connect_ex` attempt of the readiness probe. -/
structure OSEnv where
  x11 : X11Dir
  xvfbPid : Nat
  xvfbAlive : Bool
  mainPid : Nat
  connectRes : Nat → Int

/-- The message of the `UnsupportedPlatformError` raised by `_start_xvfb` on
a non-Linux platform. -/
def unsupportedXvfbMsg (plat : String) : String :=
  "Xvfb is only supported on Linux/X11, not on " ++ plat ++ ". " ++
  "On macOS and Windows, Xpra uses the native display system."

/-- The Xvfb helper argument vector built in `_start_xvfb`. -/
def xvfbArgs (display : String) : List String :=
  ["Xvfb", display, "-screen", "0", "1280x1024x24", "-ac", "-noreset"]

/-- `XpraServer._start_xvfb`: Linux-only; spawn Xvfb on the given display,
wait a fixed settle delay, then poll: if the process already exited, raise
`HelperStartupError` (the spawned handle is not recorded in that case). -/
def start_xvfb (plat display : String) (xvfbPid : Nat) (alive : Bool) :
    List StartEvent × Except XpraError Nat :=
  if plat ≠ "Linux" then
    ([], .error (.unsupportedPlatform (unsupportedXvfbMsg plat)))
  else
    ([StartEvent.spawnXvfb xvfbPid (xvfbArgs display)],
      if alive then .ok xvfbPid else .error (.helperStartup display))

/-- `XpraServer._wait_for_socket`: poll `connect_ex((host, port))` once per
0.2-second tick until it returns 0 or the deadline elapses (modelled as
`5 * timeout` polling ticks); on expiry raise `ReadinessTimeoutError` naming
the timeout. -/
def wait_for_socket_aux (connectRes : Nat → Int) (timeout : Nat) :
    Nat → Nat → Except XpraError Unit
  | 0, _ => .error (.readinessTimeout timeout)
  | fuel + 1, i => if connectRes i = 0 then .ok () else
      wait_for_socket_aux connectRes timeout fuel (i + 1)

/-- `_wait_for_socket` with its default 10-second deadline parameter made
explicit. -/
def wait_for_socket (connectRes : Nat → Int) (timeout : Nat) :
    Except XpraError Unit :=
  wait_for_socket_aux connectRes timeout (5 * timeout) 0

/-- The `if self.display: args.append(f"--display=...")` step: the display
argument is appended exactly when `self.display` is a truthy (nonempty)
string. -/
def dispArg : Option String → List String
  | some d => if d = "" then [] else ["--display=" ++ d]
  | none => []

/-- The main xpra argument vector built in `XpraServer.start`: the fixed
list, then the conditional display argument, then the caller's `extra_args`
extended last. -/
def mainArgs (app_command host : String) (port : Nat) (display : Option String)
    (extra_args : List String) : List String :=
  (["xpra", "seamless",
    "--start=" ++ app_command,
    "--bind-ws=" ++ host ++ ":" ++ toString port,
    "--no-daemon",
    "--speaker=no",
    "--microphone=no"] ++
   dispArg display) ++ extra_args

/-- The warning message emitted by `start` on macOS/Windows when
`use_xvfb=True`. -/
def xvfbIgnoredMsg (plat : String) : String :=
  "use_xvfb=True is ignored on " ++ plat ++ " (native display is used instead)"

/-- `XpraServer.start`: fail with `AlreadyRunningError` if a main process is
recorded; on Linux with `use_xvfb` allocate a display and start the helper;
on macOS/Windows warn if `use_xvfb` was requested; build the argument
vector, spawn the main process with the environment overrides, attach log
capture, wait for the endpoint, and return the WebSocket URL.  The updated
object state is returned even on failure paths, mirroring the partial
mutation of `self` before a raise. -/
def XpraServer.start (s : XpraServer) (app_command : String)
    (extra_args : List String) (use_xvfb : Bool) (env : OSEnv) :
    XpraServer × List StartEvent × Except XpraError String :=
  if s.process.isSome then
    (s, [], .error .alreadyRunning)
  else
    -- platform-specific display setup
    let setup : XpraServer × List StartEvent × Option XpraError :=
      if s.platform = "Linux" ∧ use_xvfb = true then
        match find_free_display s.platform env.x11 with
        | .error e => (s, [], some e)
        | .ok disp =>
          let s₁ := { s with display := some disp }
          match start_xvfb s.platform disp env.xvfbPid env.xvfbAlive with
          | (evs, .error e) => (s₁, evs, some e)
          | (evs, .ok pid) => ({ s₁ with xvfb_process := some pid }, evs, none)
      else if s.platform = "Darwin" ∨ s.platform = "Windows" then
        (s, if use_xvfb then [StartEvent.warn (xvfbIgnoredMsg s.platform)] else [],
          none)
      else
        (s, [], none)
    match setup with
    | (s₁, evs, some e) => (s₁, evs, .error e)
    | (s₁, evs, none) =>
      let args := mainArgs app_command s.host s.port s₁.display extra_args
      let s₂ := { s₁ with process := some env.mainPid }
      let evs₂ := evs ++ [StartEvent.spawnMain env.mainPid args "/tmp" "1"]
      -- streams are opened with stdout=PIPE, stderr=PIPE, so attach succeeds
      match s₂.log_capture.attach true true with
      | .error e => (s₂, evs₂, .error e)
      | .ok (cap, _tags) =>
        let s₃ := { s₂ with log_capture := cap }
        let evs₃ := evs₂ ++ [StartEvent.attachCapture env.mainPid]
        match wait_for_socket env.connectRes 10 with
        | .error e => (s₃, evs₃, .error e)
        | .ok _ =>
          (s₃, evs₃, .ok ("ws://" ++ s.host ++ ":" ++ toString s.port ++ "/"))

/-- The `try: terminate/wait(timeout) except TimeoutExpired: kill/wait`
pattern applied to one recorded process handle in `XpraServer.stop`;
`graceful` is the oracle for whether the timed wait returned before expiry.
The handle is cleared afterwards in both cases, and the forced path ends in
an unconditional `wait()` rather than a raise. -/
def shutdownProcess (pid : Nat) (timeout : Nat) (graceful : Bool) :
    List StopEvent :=
  if graceful then
    [StopEvent.terminate pid, StopEvent.waitTimeout pid timeout false]
  else
    [StopEvent.terminate pid, StopEvent.waitTimeout pid timeout true,
     StopEvent.kill pid, StopEvent.waitForever pid]

/-- `XpraServer.stop`: stop log capture, then (if recorded) gracefully
terminate the main process with escalation to kill after `timeout`, then the
Xvfb helper with its fixed 5-second timeout, clearing both handles. -/
def XpraServer.stop (s : XpraServer) (timeout : Nat)
    (mainGraceful xvfbGraceful : Bool) : XpraServer × List StopEvent :=
  let (cap, capEvs) := s.log_capture.stop
  let mainEvs :=
    match s.process with
    | none => []
    | some pid => shutdownProcess pid timeout mainGraceful
  let xvfbEvs :=
    match s.xvfb_process with
    | none => []
    | some pid => shutdownProcess pid 5 xvfbGraceful
  ({ s with log_capture := cap, process := none, xvfb_process := none },
    capEvs ++ mainEvs ++ xvfbEvs)

/-- `XpraServer.is_running`: `self.process is not None and
self.process.poll() is None`; `poll` is the OS oracle giving the exit code
of an exited process. -/
def XpraServer.is_running (s : XpraServer) (poll : Nat → Option Int) : Bool :=
  match s.process with
  | none => false
  | some pid => (poll pid).isNone

/-- `XpraServer.stop` clears `self.process` unconditionally, but note that it
leaves `self.display` as it was; the observable session state of §3 of the
spec (main handle, helper handle, capture buffer, endpoint, display). -/
structure SessionView where
  process : Option Nat
  xvfb_process : Option Nat
  buffer : List String
  host : String
  port : Nat
  display : Option String
deriving Repr, DecidableEq

/-- Project the observable session state out of an `XpraServer`. -/
def XpraServer.sessionView (s : XpraServer) : SessionView :=
  { process := s.process, xvfb_process := s.xvfb_process,
    buffer := s.log_capture.buffer, host := s.host, port := s.port,
    display := s.display }

/-! ### Concrete fixtures used by witnesses -/

/-- A socket directory occupied by exactly displays 100–105. -/
def sampleDir : X11Dir :=
  { dirExists := true, files := ["X100", "X101", "X102", "X103", "X104", "X105"] }

/-- A freshly constructed server manager on Linux. -/
def idleServer : XpraServer :=
  { host := "127.0.0.1", port := 1234, display := none, process := none,
    log_capture := LogCapture.init, xvfb_process := none, platform := "Linux" }

/-- A session with a main process handle already recorded. -/
def busyServer : XpraServer := { idleServer with process := some 3 }

/-- A session with both a main and a helper process recorded. -/
def fullServer : XpraServer :=
  { idleServer with process := some 3, xvfb_process := some 4 }

/-- An OS oracle where the endpoint accepts the first connection attempt. -/
def readyEnv : OSEnv :=
  { x11 := sampleDir, xvfbPid := 7, xvfbAlive := true, mainPid := 9,
    connectRes := fun _ => 0 }

/-- An OS oracle where the endpoint never accepts a connection. -/
def deadEnv : OSEnv := { readyEnv with connectRes := fun _ => 111 }

/-! ### Claim theorems -/

/-- C1: calling `start` while a main process handle is already recorded fails
immediately with `AlreadyRunningError` (the `raise RuntimeError("Server
already running")` guard), before any resource allocation or process spawn
(the event trace is empty), and leaves the whole recorded state — in
particular the first session's main process handle — unchanged. -/
theorem start_when_already_running (s : XpraServer) (app : String)
    (extra : List String) (ux : Bool) (env : OSEnv) (p : Nat)
    (h : s.process = some p) :
    s.start app extra ux env = (s, [], Except.error XpraError.alreadyRunning) := by
  simp [XpraServer.start, h]

/-- Witness for C1 at a concrete busy session. -/
theorem start_when_already_running_witness :
    busyServer.process = some 3 ∧
    busyServer.start "xeyes" [] true readyEnv =
      (busyServer, [], Except.error XpraError.alreadyRunning) :=
  ⟨rfl, start_when_already_running busyServer "xeyes" [] true readyEnv 3 rfl⟩

/-- C2: after `stop` returns, both the main and the helper process handles
are cleared and `is_running` is false, regardless of whether each shutdown
was graceful or forced; conversely `is_running` is true exactly when a main
process handle exists and the OS `poll()` reports the process as not exited. -/
theorem stop_clears_handles_is_running (s : XpraServer) (t : Nat)
    (g1 g2 : Bool) (poll : Nat → Option Int) :
    (s.stop t g1 g2).1.process = none ∧
    (s.stop t g1 g2).1.xvfb_process = none ∧
    (s.stop t g1 g2).1.is_running poll = false ∧
    (s.is_running poll = true ↔ ∃ p, s.process = some p ∧ poll p = none) := by
  refine ⟨rfl, rfl, rfl, ?_⟩
  cases hp : s.process with
  | none => simp [XpraServer.is_running, hp]
  | some p => simp [XpraServer.is_running, hp, Option.isNone_iff_eq_none]

/-- C3: `stop` signals the main process gracefully and waits up to `timeout`;
only when that wait expires is the process killed and then waited on
unconditionally; the helper (when present) independently follows the same
pattern with its own fixed 5-second timeout; and the forced path ends in a
normal return (the event trace below is total — no raise). -/
theorem stop_graceful_then_forced (s : XpraServer) (t : Nat) (g1 g2 : Bool)
    (p q : Nat) (hp : s.process = some p) (hq : s.xvfb_process = some q) :
    (s.stop t g1 g2).2 =
      (s.log_capture.stop).2 ++
      (if g1 then [StopEvent.terminate p, StopEvent.waitTimeout p t false]
       else [StopEvent.terminate p, StopEvent.waitTimeout p t true,
             StopEvent.kill p, StopEvent.waitForever p]) ++
      (if g2 then [StopEvent.terminate q, StopEvent.waitTimeout q 5 false]
       else [StopEvent.terminate q, StopEvent.waitTimeout q 5 true,
             StopEvent.kill q, StopEvent.waitForever q]) := by
  cases g1 <;> cases g2 <;> simp [XpraServer.stop, hp, hq, shutdownProcess]

/-- Witness for C3: a session with both processes, the main wait expiring
and the helper exiting gracefully. -/
theorem stop_graceful_then_forced_witness :
    fullServer.process = some 3 ∧ fullServer.xvfb_process = some 4 ∧
    (fullServer.stop 10 false true).2 =
      (fullServer.log_capture.stop).2 ++
      (if false then [StopEvent.terminate 3, StopEvent.waitTimeout 3 10 false]
       else [StopEvent.terminate 3, StopEvent.waitTimeout 3 10 true,
             StopEvent.kill 3, StopEvent.waitForever 3]) ++
      (if true then [StopEvent.terminate 4, StopEvent.waitTimeout 4 5 false]
       else [StopEvent.terminate 4, StopEvent.waitTimeout 4 5 true,
             StopEvent.kill 4, StopEvent.waitForever 4]) :=
  ⟨rfl, rfl, stop_graceful_then_forced fullServer 10 false true 3 4 rfl rfl⟩

/-- The linear scan returns `n` when `n` is in range, free, and every
candidate before it is occupied. -/
theorem scanFree_eq_some (isFree : Nat → Bool) :
    ∀ (fuel a n : Nat), a ≤ n → n < a + fuel → isFree n = true →
      (∀ m, a ≤ m → m < n → isFree m = false) →
      scanFree isFree fuel a = some n
  | 0, _, _, _, h2, _, _ => absurd h2 (by omega)
  | fuel + 1, a, n, h1, h2, hfree, hbefore => by
    unfold scanFree
    by_cases ha : isFree a = true
    · have han : a = n := by
        by_contra hne
        have hlt : a < n := lt_of_le_of_ne h1 hne
        rw [hbefore a le_rfl hlt] at ha
        exact absurd ha (by simp)
      subst han
      rw [ha]
      simp
    · have hfa : isFree a = false := by
        cases h : isFree a
        · rfl
        · exact absurd h ha
      have h1' : a + 1 ≤ n := by
        rcases Nat.lt_or_ge a n with h | h
        · omega
        · have : a = n := le_antisymm h1 h
          rw [this] at hfa
          rw [hfa] at hfree
          exact absurd hfree (by simp)
      rw [hfa]
      simp only [Bool.false_eq_true, if_false]
      exact scanFree_eq_some isFree fuel (a + 1) n h1' (by omega) hfree
        (fun m hm1 hm2 => hbefore m (by omega) hm2)

/-- The linear scan is exhausted when every candidate in range is occupied. -/
theorem scanFree_eq_none (isFree : Nat → Bool) :
    ∀ (fuel a : Nat), (∀ m, a ≤ m → m < a + fuel → isFree m = false) →
      scanFree isFree fuel a = none
  | 0, _, _ => rfl
  | fuel + 1, a, h => by
    unfold scanFree
    rw [h a le_rfl (by omega)]
    simp only [Bool.false_eq_true, if_false]
    exact scanFree_eq_none isFree fuel (a + 1) (fun m hm1 hm2 => h m (by omega) (by omega))

/-- When every number in `used_displays` also has its canonical socket file
present (the well-formed socket directory the OS maintains), the code's
two-part free test coincides with "the socket file does not exist". -/
theorem displayFree_eq_not_sockExists (d : X11Dir)
    (hused : ∀ i ∈ d.usedDisplays, 0 ≤ i ∧ d.sockExists i.toNat = true)
    (n : Nat) : displayFree d n = !(d.sockExists n) := by
  unfold displayFree
  cases hs : d.sockExists n
  · have hmem : d.usedDisplays.contains ((n : Nat) : Int) = false := by
      by_contra h
      have hc : d.usedDisplays.contains ((n : Nat) : Int) = true := by
        cases hcc : d.usedDisplays.contains ((n : Nat) : Int)
        · exact absurd hcc h
        · rfl
      have hm : ((n : Nat) : Int) ∈ d.usedDisplays := by
        simpa using hc
      obtain ⟨_, hsock⟩ := hused _ hm
      rw [Int.toNat_natCast] at hsock
      rw [hs] at hsock
      exact absurd hsock (by simp)
    rw [hmem]
    rfl
  · simp

/-- C4: on Linux, `_find_free_display` scans candidates 100, 101, …, 9999 in
order and (for a well-formed socket directory) returns the first number
whose socket file does not exist; with sockets present for exactly displays
100–105 it returns `":106"`; and when every number in the range is occupied
it fails with `ResourceExhaustedError`. -/
theorem find_free_display_linear_scan :
    (∀ (d : X11Dir) (n : Nat),
       (∀ i ∈ d.usedDisplays, 0 ≤ i ∧ d.sockExists i.toNat = true) →
       100 ≤ n → n < 10000 → d.sockExists n = false →
       (∀ m, m < n → 100 ≤ m → d.sockExists m = true) →
       find_free_display "Linux" d = Except.ok (":" ++ toString n)) ∧
    find_free_display "Linux" sampleDir = Except.ok ":106" ∧
    (∀ d : X11Dir, (∀ m, m < 10000 → 100 ≤ m → d.sockExists m = true) →
       find_free_display "Linux" d = Except.error XpraError.resourceExhausted) := by
  refine ⟨?_, by decide, ?_⟩
  · intro d n hused h1 h2 hfree hbefore
    have hscan : scanFree (displayFree d) 9900 100 = some n := by
      apply scanFree_eq_some (displayFree d) 9900 100 n h1 (by omega)
      · rw [displayFree_eq_not_sockExists d hused, hfree]
        rfl
      · intro m hm1 hm2
        rw [displayFree_eq_not_sockExists d hused, hbefore m hm2 hm1]
        rfl
    simp [find_free_display, hscan]
  · intro d hall
    have hscan : scanFree (displayFree d) 9900 100 = none := by
      apply scanFree_eq_none
      intro m hm1 hm2
      unfold displayFree
      rw [hall m (by omega) hm1]
      simp
    simp [find_free_display, hscan]

/-- Witness for C4 at the concrete 100–105 directory, via the general
first-free clause at `n = 106`. -/
theorem find_free_display_linear_scan_witness :
    find_free_display "Linux" sampleDir = Except.ok (":" ++ toString 106) :=
  find_free_display_linear_scan.1 sampleDir 106 (by decide) (by decide)
    (by decide) (by decide) (by decide)

/-- The readiness probe succeeds when the very first connection attempt is
accepted (and the deadline is positive). -/
theorem wait_for_socket_ok_first (c : Nat → Int) (t : Nat) (h : c 0 = 0)
    (ht : 0 < t) : wait_for_socket c t = Except.ok () := by
  unfold wait_for_socket
  have h5 : 5 * t = (5 * t - 1) + 1 := by omega
  rw [h5]
  unfold wait_for_socket_aux
  rw [h]
  simp

/-- A macOS session manager, otherwise identical to `idleServer`. -/
def darwinServer : XpraServer := { idleServer with platform := "Darwin" }

/-- C5: on the non-Linux platform families (macOS = `"Darwin"`, Windows =
`"Windows"`), direct display allocation raises `UnsupportedPlatformError`
whose message contains the platform name, while `start` with the
virtual-display flag on the same platform succeeds without raising and
surfaces the non-fatal warning instead (the request is a no-op). -/
theorem platform_gating (p : String) (hp : p = "Darwin" ∨ p = "Windows")
    (d : X11Dir) (s : XpraServer) (hplat : s.platform = p)
    (hproc : s.process = none) (app : String) (extra : List String)
    (env : OSEnv) (hready : env.connectRes 0 = 0) :
    (find_free_display p d =
        Except.error (XpraError.unsupportedPlatform (unsupportedDisplayMsg p)) ∧
      ∃ pre post, unsupportedDisplayMsg p = pre ++ p ++ post) ∧
    (s.start app extra true env).2.2 =
      Except.ok ("ws://" ++ s.host ++ ":" ++ toString s.port ++ "/") ∧
    StartEvent.warn (xvfbIgnoredMsg p) ∈ (s.start app extra true env).2.1 := by
  have hw : wait_for_socket env.connectRes 10 = Except.ok () :=
    wait_for_socket_ok_first _ _ hready (by omega)
  rcases hp with h | h <;> subst h <;>
    refine ⟨⟨?_, ?_⟩, ?_, ?_⟩
  · unfold find_free_display
    rw [if_pos (by decide)]
  · exact ⟨"Display management is only supported on Linux/X11, " ++ "not on ",
      ". " ++ "On macOS and Windows, Xpra uses the native display system.",
      by decide⟩
  · simp [XpraServer.start, hproc, hplat, LogCapture.attach, hw]
  · simp [XpraServer.start, hproc, hplat, LogCapture.attach, hw]
  · unfold find_free_display
    rw [if_pos (by decide)]
  · exact ⟨"Display management is only supported on Linux/X11, " ++ "not on ",
      ". " ++ "On macOS and Windows, Xpra uses the native display system.",
      by decide⟩
  · simp [XpraServer.start, hproc, hplat, LogCapture.attach, hw]
  · simp [XpraServer.start, hproc, hplat, LogCapture.attach, hw]

/-- Witness for C5 on a concrete macOS session. -/
theorem platform_gating_witness :
    (find_free_display "Darwin" sampleDir =
        Except.error
          (XpraError.unsupportedPlatform (unsupportedDisplayMsg "Darwin")) ∧
      ∃ pre post, unsupportedDisplayMsg "Darwin" = pre ++ "Darwin" ++ post) ∧
    (darwinServer.start "xeyes" [] true readyEnv).2.2 =
      Except.ok ("ws://" ++ darwinServer.host ++ ":" ++
        toString darwinServer.port ++ "/") ∧
    StartEvent.warn (xvfbIgnoredMsg "Darwin") ∈
      (darwinServer.start "xeyes" [] true readyEnv).2.1 :=
  platform_gating "Darwin" (Or.inl rfl) sampleDir darwinServer rfl rfl
    "xeyes" [] readyEnv rfl

/-- The readiness probe fails with `ReadinessTimeoutError` when no connection
attempt ever succeeds. -/
theorem wait_for_socket_aux_never (c : Nat → Int) (h : ∀ i, c i ≠ 0)
    (t : Nat) : ∀ (fuel i : Nat),
    wait_for_socket_aux c t fuel i = Except.error (XpraError.readinessTimeout t)
  | 0, _ => rfl
  | fuel + 1, i => by
    unfold wait_for_socket_aux
    rw [if_neg (h i)]
    exact wait_for_socket_aux_never c h t fuel (i + 1)

/-- The whole readiness probe fails when no attempt ever succeeds. -/
theorem wait_for_socket_never (c : Nat → Int) (h : ∀ i, c i ≠ 0) (t : Nat) :
    wait_for_socket c t = Except.error (XpraError.readinessTimeout t) := by
  unfold wait_for_socket
  exact wait_for_socket_aux_never c h t (5 * t) 0

/-- C6: when the readiness deadline elapses without the endpoint accepting a
connection, `start` fails with `ReadinessTimeoutError` and does not kill or
clear the already-spawned processes: the main process handle (and the helper
handle, when the virtual-display path ran) remains recorded on this failure
path, leaving `stop` as the caller's cleanup path. -/
theorem readiness_timeout_keeps_handles (s : XpraServer) (app : String)
    (extra : List String) (ux : Bool) (env : OSEnv)
    (hproc : s.process = none)
    (hnever : ∀ i, env.connectRes i ≠ 0)
    (halloc : s.platform = "Linux" → ux = true →
      (∃ m, find_free_display "Linux" env.x11 = Except.ok m) ∧
        env.xvfbAlive = true) :
    (s.start app extra ux env).2.2 =
      Except.error (XpraError.readinessTimeout 10) ∧
    (s.start app extra ux env).1.process = some env.mainPid ∧
    (s.platform = "Linux" → ux = true →
      (s.start app extra ux env).1.xvfb_process = some env.xvfbPid) := by
  have hw : wait_for_socket env.connectRes 10 =
      Except.error (XpraError.readinessTimeout 10) :=
    wait_for_socket_never env.connectRes hnever 10
  by_cases hL : s.platform = "Linux" ∧ ux = true
  · obtain ⟨⟨m, hm⟩, halive⟩ := halloc hL.1 hL.2
    refine ⟨?_, ?_, fun _ _ => ?_⟩ <;>
      simp [XpraServer.start, hproc, hL, hm, start_xvfb, hL.1, halive,
        LogCapture.attach, hw]
  · have hsetup :
        ¬(s.platform = "Linux" ∧ ux = true) := hL
    refine ⟨?_, ?_, fun h1 h2 => absurd ⟨h1, h2⟩ hL⟩ <;>
      by_cases hDW : s.platform = "Darwin" ∨ s.platform = "Windows" <;>
        simp [XpraServer.start, hproc, hsetup, hDW, LogCapture.attach, hw]

/-- Witness for C6: a Linux session whose endpoint never accepts. -/
theorem readiness_timeout_keeps_handles_witness :
    (idleServer.start "xeyes" [] true deadEnv).2.2 =
      Except.error (XpraError.readinessTimeout 10) ∧
    (idleServer.start "xeyes" [] true deadEnv).1.process =
      some deadEnv.mainPid ∧
    (idleServer.platform = "Linux" → true = true →
      (idleServer.start "xeyes" [] true deadEnv).1.xvfb_process =
        some deadEnv.xvfbPid) :=
  readiness_timeout_keeps_handles idleServer "xeyes" [] true deadEnv rfl
    (fun i => by simp [deadEnv, readyEnv])
    (fun _ _ => ⟨⟨":106", by decide⟩, rfl⟩)

/-- The spec's "lines joined by newlines" notion, by direct recursion; stated
independently of the implementation's `"\n".join`. -/
def joinedByNewlines : List String → String
  | [] => ""
  | [l] => l
  | l :: l' :: ls => l ++ "\n" ++ joinedByNewlines (l' :: ls)

/-- The accumulator loop of `String.intercalate` computes the recursive
newline join. -/
theorem intercalate_go_newline :
    ∀ (as : List String) (acc : String),
      String.intercalate.go acc "\n" as = joinedByNewlines (acc :: as)
  | [], _ => rfl
  | a :: as, acc => by
    rw [show String.intercalate.go acc "\n" (a :: as) =
        String.intercalate.go (acc ++ "\n" ++ a) "\n" as from rfl]
    rw [intercalate_go_newline as (acc ++ "\n" ++ a)]
    cases as with
    | nil => rfl
    | cons b bs =>
      show _ ++ "\n" ++ _ = _ ++ "\n" ++ (_ ++ "\n" ++ _)
      simp [String.append_assoc]

/-- `get_output` is the recursive newline join of the buffer. -/
theorem get_output_eq_joined (c : LogCapture) :
    c.get_output = joinedByNewlines c.get_lines := by
  unfold LogCapture.get_output LogCapture.get_lines
  cases hb : c.buffer with
  | nil => rfl
  | cons a as => exact intercalate_go_newline as a

/-- A reader appends its lines, tagged and in arrival order, at the end of
the buffer (when the stop event stays clear and the stream has not ended). -/
theorem readStream_buffer (tag : String) :
    ∀ (raws : List String) (c : LogCapture), c.stopEventSet = false →
      (∀ l ∈ raws, l ≠ "") →
      (c.readStream tag raws).buffer = c.buffer ++ raws.map (taggedLine tag)
  | [], c, _, _ => by simp [LogCapture.readStream]
  | line :: rest, c, hstop, hne => by
    have hline : ¬(line = "") := hne line (by simp)
    have hc' : (c.appendTagged tag line).stopEventSet = false := hstop
    unfold LogCapture.readStream
    rw [if_neg hline]
    simp only []
    rw [hc']
    simp only [Bool.false_eq_true, if_false]
    rw [readStream_buffer tag rest (c.appendTagged tag line) hc'
      (fun l hl => hne l (by simp [hl]))]
    simp [LogCapture.appendTagged]

/-- C7: `get_output` equals the lines of `get_lines` joined by newlines;
lines captured by a reader appear at the end of `get_lines` carrying their
stream-tag prefix in arrival order; and after `clear`, `get_lines` is the
empty sequence and `get_output` the empty text. -/
theorem capture_output_join_clear (c : LogCapture) (tag : String)
    (raws : List String) (hstop : c.stopEventSet = false)
    (hne : ∀ l ∈ raws, l ≠ "") :
    c.get_output = joinedByNewlines c.get_lines ∧
    (c.readStream tag raws).get_lines =
      c.get_lines ++ raws.map (taggedLine tag) ∧
    (LogCapture.clear c).get_lines = [] ∧
    (LogCapture.clear c).get_output = "" :=
  ⟨get_output_eq_joined c, readStream_buffer tag raws c hstop hne, rfl, rfl⟩

/-- Witness for C7 on a concrete buffer state and stream content. -/
theorem capture_output_join_clear_witness :
    ({ LogCapture.init with buffer := ["[STDOUT] x"] } : LogCapture).get_output =
      joinedByNewlines
        ({ LogCapture.init with buffer := ["[STDOUT] x"] } : LogCapture).get_lines ∧
    (({ LogCapture.init with buffer := ["[STDOUT] x"] } : LogCapture).readStream
        "STDERR" ["err line\n"]).get_lines =
      ({ LogCapture.init with buffer := ["[STDOUT] x"] } : LogCapture).get_lines ++
        ["err line\n"].map (taggedLine "STDERR") ∧
    (LogCapture.clear { LogCapture.init with buffer := ["[STDOUT] x"] }).get_lines = [] ∧
    (LogCapture.clear { LogCapture.init with buffer := ["[STDOUT] x"] }).get_output = "" :=
  capture_output_join_clear { LogCapture.init with buffer := ["[STDOUT] x"] }
    "STDERR" ["err line\n"] rfl (by decide)

/-- C8: whenever `start` reaches the spawn of the main process, the argument
vector is exactly: the positional mode token `seamless`, `--start=<app>`,
the bind address `--bind-ws=<host>:<port>`, the foreground flag
`--no-daemon`, the audio-disable flags `--speaker=no` and `--microphone=no`,
a `--display=<id>` argument exactly when a display identifier is recorded,
and the caller-supplied extra arguments appended verbatim and last; the
environment carries the private log directory and the non-interactive
marker. -/
theorem main_args_contract (s : XpraServer) (app : String)
    (extra : List String) (ux : Bool) (env : OSEnv)
    (hproc : s.process = none)
    (halloc : s.platform = "Linux" → ux = true →
      (∃ m, find_free_display "Linux" env.x11 = Except.ok m) ∧
        env.xvfbAlive = true) :
    StartEvent.spawnMain env.mainPid
      ((["xpra", "seamless",
         "--start=" ++ app,
         "--bind-ws=" ++ s.host ++ ":" ++ toString s.port,
         "--no-daemon", "--speaker=no", "--microphone=no"] ++
        dispArg (s.start app extra ux env).1.display) ++ extra)
      "/tmp" "1" ∈ (s.start app extra ux env).2.1 ∧
    (∀ d, (s.start app extra ux env).1.display = some d → d ≠ "" →
      dispArg (s.start app extra ux env).1.display = ["--display=" ++ d]) ∧
    ((s.start app extra ux env).1.display = none →
      dispArg (s.start app extra ux env).1.display = []) := by
  refine ⟨?_, fun d hd hne => by rw [hd]; simp [dispArg, hne],
    fun hd => by rw [hd]; rfl⟩
  by_cases hL : s.platform = "Linux" ∧ ux = true
  · obtain ⟨⟨m, hm⟩, halive⟩ := halloc hL.1 hL.2
    cases hw : wait_for_socket env.connectRes 10 <;>
      simp [XpraServer.start, hproc, hL, hm, start_xvfb, hL.1, halive,
        LogCapture.attach, hw, mainArgs]
  · by_cases hDW : s.platform = "Darwin" ∨ s.platform = "Windows" <;>
      cases hw : wait_for_socket env.connectRes 10 <;>
        simp [XpraServer.start, hproc, hL, hDW, LogCapture.attach, hw, mainArgs]

/-- Witness for C8: a concrete Linux session with a display allocated and
one extra argument. -/
theorem main_args_contract_witness :
    StartEvent.spawnMain readyEnv.mainPid
      ((["xpra", "seamless",
         "--start=" ++ "xeyes",
         "--bind-ws=" ++ idleServer.host ++ ":" ++ toString idleServer.port,
         "--no-daemon", "--speaker=no", "--microphone=no"] ++
        dispArg (idleServer.start "xeyes" ["--foo"] true readyEnv).1.display) ++
       ["--foo"])
      "/tmp" "1" ∈ (idleServer.start "xeyes" ["--foo"] true readyEnv).2.1 ∧
    (∀ d, (idleServer.start "xeyes" ["--foo"] true readyEnv).1.display = some d →
      d ≠ "" →
      dispArg (idleServer.start "xeyes" ["--foo"] true readyEnv).1.display =
        ["--display=" ++ d]) ∧
    ((idleServer.start "xeyes" ["--foo"] true readyEnv).1.display = none →
      dispArg (idleServer.start "xeyes" ["--foo"] true readyEnv).1.display = []) :=
  main_args_contract idleServer "xeyes" ["--foo"] true readyEnv rfl
    (fun _ _ => ⟨⟨":106", by decide⟩, rfl⟩)

/-- A session that was started and stopped once: no process handles, but the
reader-thread handles remain recorded (the Python code never clears
`stdout_thread`/`stderr_thread`) and the stop event is set. -/
def stoppedServer : XpraServer :=
  { idleServer with
    log_capture :=
      { stdout_thread := true, stderr_thread := true,
        buffer := ["[STDOUT] bye"], stopEventSet := true } }

/-- C9 counterexample: on a session with no recorded main process and no
recorded helper process that was already stopped (reader threads still
recorded), `stop` does join the reader threads again, so "the capture stop
joins no reader threads" fails as stated. -/
theorem stop_on_stopped_session_joins_readers :
    stoppedServer.process = none ∧ stoppedServer.xvfb_process = none ∧
    (stoppedServer.stop 10 true true).2 =
      [StopEvent.joinReader "stdout", StopEvent.joinReader "stderr"] ∧
    (stoppedServer.stop 10 true true).2 ≠ [] := by
  refine ⟨rfl, rfl, rfl, ?_⟩
  decide

/-- C9 (amended): calling `stop` on a session with no recorded main process
and no recorded helper process returns normally, skips both
process-termination branches (every emitted event is a reader-thread join),
and leaves the observable session state — handles, buffer, endpoint,
display — unchanged; when the session was never started (no reader threads
recorded) no threads are joined at all; and `stop` is safe to call twice in
a row: the second call returns the same state and the same events. -/
theorem stop_without_processes (s : XpraServer) (t t' : Nat)
    (g1 g2 g1' g2' : Bool) (hp : s.process = none)
    (hx : s.xvfb_process = none) :
    (s.stop t g1 g2).1.sessionView = s.sessionView ∧
    (∀ e ∈ (s.stop t g1 g2).2, ∃ w, e = StopEvent.joinReader w) ∧
    (s.log_capture.stdout_thread = false →
      s.log_capture.stderr_thread = false → (s.stop t g1 g2).2 = []) ∧
    ((s.stop t g1 g2).1.stop t' g1' g2').1 = (s.stop t g1 g2).1 ∧
    ((s.stop t g1 g2).1.stop t' g1' g2').2 = (s.stop t g1 g2).2 := by
  refine ⟨?_, ?_, ?_, ?_, ?_⟩
  · simp [XpraServer.stop, XpraServer.sessionView, hp, hx, LogCapture.stop]
  · intro e he
    simp only [XpraServer.stop, LogCapture.stop, hp, hx] at he
    cases hso : s.log_capture.stdout_thread <;>
      cases hse : s.log_capture.stderr_thread <;>
        simp [hso, hse] at he
    · exact ⟨"stderr", he⟩
    · exact ⟨"stdout", he⟩
    · rcases he with h | h
      · exact ⟨"stdout", h⟩
      · exact ⟨"stderr", h⟩
  · intro h1 h2
    simp [XpraServer.stop, LogCapture.stop, hp, hx, h1, h2]
  · rfl
  · simp [XpraServer.stop, LogCapture.stop, hp, hx]

/-- Witness for C9 (amended) on a concrete never-started session. -/
theorem stop_without_processes_witness :
    (idleServer.stop 10 true false).1.sessionView = idleServer.sessionView ∧
    (∀ e ∈ (idleServer.stop 10 true false).2, ∃ w, e = StopEvent.joinReader w) ∧
    (idleServer.log_capture.stdout_thread = false →
      idleServer.log_capture.stderr_thread = false →
      (idleServer.stop 10 true false).2 = []) ∧
    ((idleServer.stop 10 true false).1.stop 5 false true).1 =
      (idleServer.stop 10 true false).1 ∧
    ((idleServer.stop 10 true false).1.stop 5 false true).2 =
      (idleServer.stop 10 true false).2 :=
  stop_without_processes idleServer 10 5 true false false true rfl rfl

/-- Whether a string ends in a line-terminator character. -/
def endsInNewline (s : String) : Bool :=
  match s.data.getLast? with
  | some c => isNewlineChar c
  | none => false

/-- The result of `rstrip("\n\r")` never ends in a line terminator. -/
theorem rstripNewlines_no_terminator (s : String) (c : Char)
    (h : (rstripNewlines s).data.getLast? = some c) : isNewlineChar c = false := by
  unfold rstripNewlines at h
  rw [List.getLast?_reverse] at h
  have hne : s.data.reverse.dropWhile isNewlineChar ≠ [] := by
    intro hnil
    rw [hnil] at h
    exact Option.noConfusion h
  have hh := List.head_dropWhile_not isNewlineChar s.data.reverse hne
  rw [List.head?_eq_head hne] at h
  rw [Option.some.inj h] at hh
  exact hh

/-- A tagged buffer entry never ends in a line terminator: its tail is the
stripped content when nonempty, and the `"] "` of the tag prefix otherwise. -/
theorem taggedLine_not_endsInNewline (tag l : String) :
    endsInNewline (taggedLine tag l) = false := by
  unfold endsInNewline taggedLine
  rw [String.data_append, List.getLast?_append]
  cases hL : (rstripNewlines l).data.getLast? with
  | some c =>
    rw [Option.or_some]
    exact rstripNewlines_no_terminator l c hL
  | none =>
    rw [Option.none_or, String.data_append, List.getLast?_append,
      show ("] " : String).data.getLast? = some ' ' from rfl, Option.or_some]
    rfl

/-- Every entry in the buffer after a reader ran is either an original entry
or the tagged form of one of the raw lines the stream yielded. -/
theorem readStream_mem (tag : String) :
    ∀ (raws : List String) (c : LogCapture) (e : String),
      e ∈ (c.readStream tag raws).buffer →
      e ∈ c.buffer ∨ ∃ l ∈ raws, e = taggedLine tag l
  | [], _, _, he => Or.inl he
  | line :: rest, c, e, he => by
    unfold LogCapture.readStream at he
    by_cases hline : line = ""
    · rw [if_pos hline] at he
      exact Or.inl he
    · rw [if_neg hline] at he
      simp only [] at he
      by_cases hstop : (c.appendTagged tag line).stopEventSet = true
      · rw [if_pos hstop] at he
        rcases List.mem_append.1 he with h | h
        · exact Or.inl h
        · exact Or.inr ⟨line, by simp, by simpa using h⟩
      · rw [if_neg hstop] at he
        rcases readStream_mem tag rest (c.appendTagged tag line) e he with
          h | ⟨l, hl, he'⟩
        · rcases List.mem_append.1 h with h' | h'
          · exact Or.inl h'
          · exact Or.inr ⟨line, by simp, by simpa using h'⟩
        · exact Or.inr ⟨l, by simp [hl], he'⟩

/-- C10: every entry a reader appends has the exact form of the stream-tag
prefix `"[STDOUT] "` or `"[STDERR] "` followed by the line's content with all
trailing newline and carriage-return characters removed, so no appended
entry ever ends in a line terminator. -/
theorem reader_entry_form (c : LogCapture) (tag : String) (raws : List String)
    (htag : tag ∈ readerTags) :
    (∀ e ∈ (c.readStream tag raws).buffer,
      e ∈ c.buffer ∨ ∃ l ∈ raws, e = taggedLine tag l) ∧
    (∀ l, taggedLine tag l =
      (if tag = "STDOUT" then "[STDOUT] " else "[STDERR] ") ++
        rstripNewlines l) ∧
    (∀ l, endsInNewline (taggedLine tag l) = false) := by
  refine ⟨fun e he => readStream_mem tag raws c e he, fun l => ?_,
    fun l => taggedLine_not_endsInNewline tag l⟩
  rw [show readerTags = ["STDOUT", "STDERR"] from rfl] at htag
  rcases List.mem_cons.1 htag with h | h'
  case inr =>
    rcases List.mem_cons.1 h' with h | h
    case inr => exact absurd h (List.not_mem_nil tag)
    case inl =>
      subst h
      rw [if_neg (by decide)]
      show ("[" ++ "STDERR" ++ "] ") ++ rstripNewlines l = _
      rw [show ("[" ++ "STDERR" ++ "] " : String) = "[STDERR] " from by decide]
  · subst h
    rw [if_pos rfl]
    show ("[" ++ "STDOUT" ++ "] ") ++ rstripNewlines l = _
    rw [show ("[" ++ "STDOUT" ++ "] " : String) = "[STDOUT] " from by decide]

/-- Witness for C10 with a concrete buffer and stream content. -/
theorem reader_entry_form_witness :
    (∀ e ∈ (LogCapture.init.readStream "STDOUT" ["hello\r\n"]).buffer,
      e ∈ LogCapture.init.buffer ∨
        ∃ l ∈ ["hello\r\n"], e = taggedLine "STDOUT" l) ∧
    (∀ l, taggedLine "STDOUT" l =
      (if "STDOUT" = "STDOUT" then "[STDOUT] " else "[STDERR] ") ++
        rstripNewlines l) ∧
    (∀ l, endsInNewline (taggedLine "STDOUT" l) = false) :=
  reader_entry_form LogCapture.init "STDOUT" ["hello\r\n"] (by decide)

end GuiNoKit
